import Mathlib

/-!
Verification of the hydraulic retention-coil calculator (`src/app.py`).

The core of the repository is a single pure function
`calculate_retention_coil` together with two helpers
(`reynolds_number`, `darcy_friction_factor`).  We embed the arithmetic
chain over the real numbers: Python float arithmetic is modelled by
exact real arithmetic, `math.pi` by `Real.pi`, `math.log10` by
`Real.logb 10`, `math.ceil` by `Int.ceil`, and `re ** 0.9` by the real
power `re ^ (0.9 : ℝ)`.

Two embeddings of the calculation are given:
  * `calculate_retention_coil` — the total real-arithmetic version,
    used for the algebraic/invariant claims about valid inputs;
  * `calculate_retention_coilE` — the fallible version in which every
    float division of the Python source is checked (Python raises
    `ZeroDivisionError` when a float denominator is `0.0`); a failed
    division surfaces as the single error kind `Err.invalidInput` of
    the spec's error taxonomy (§7).
-/

namespace RetentionCoil

/-- The nine scalar inputs of `calculate_retention_coil`, in source order. -/
structure Inputs where
  flow_m3_h : ℝ
  retention_time_s : ℝ
  diameter_mm : ℝ
  roughness_mm : ℝ
  rho : ℝ
  mu_mpa_s : ℝ
  straight_segment_m : ℝ
  k_elbow_90 : ℝ
  include_inlet_outlet_k : Bool

/-- The thirteen-field result dictionary returned by the source, in
source order.  The Python ints `n_straights`, `n_uturns`, `elbows_90`
are modelled as `ℤ`. -/
@[ext]
structure Result where
  flow_m3_s : ℝ
  velocity : ℝ
  required_volume_m3 : ℝ
  length_m : ℝ
  n_straights : ℤ
  n_uturns : ℤ
  elbows_90 : ℤ
  re : ℝ
  f : ℝ
  k_total : ℝ
  dp_distributed_pa : ℝ
  dp_local_pa : ℝ
  dp_total_pa : ℝ

/-- `reynolds_number` from `src/app.py` lines 7-8. -/
noncomputable def reynolds_number (rho velocity diameter_m mu_pa_s : ℝ) : ℝ :=
  (rho * velocity * diameter_m) / mu_pa_s

/-- `darcy_friction_factor` from `src/app.py` lines 11-19:
three-branch rule over the Reynolds number (no-flow / laminar /
turbulent Swamee-Jain). -/
noncomputable def darcy_friction_factor (re roughness_m diameter_m : ℝ) : ℝ :=
  if re ≤ 0 then 0
  else if re < 2300 then 64 / re
  else
    0.25 / (Real.logb 10 ((roughness_m / diameter_m) / 3.7 + 5.74 / re ^ (0.9 : ℝ))) ^ 2

/-- `calculate_retention_coil` from `src/app.py` lines 22-74, as a total
function over the reals (real division is total; the checked variant is
`calculate_retention_coilE` below). -/
noncomputable def calculate_retention_coil (i : Inputs) : Result :=
  let q_m3_s := i.flow_m3_h / 3600
  let diameter_m := i.diameter_mm / 1000
  let roughness_m := i.roughness_mm / 1000
  let mu_pa_s := i.mu_mpa_s / 1000
  let area := Real.pi * diameter_m ^ 2 / 4
  let velocity := q_m3_s / area
  let required_volume_m3 := q_m3_s * i.retention_time_s
  let length_m := required_volume_m3 / area
  let n_straights : ℤ := max 1 ⌈length_m / i.straight_segment_m⌉
  let n_uturns : ℤ := max 0 (n_straights - 1)
  let elbows_90 : ℤ := n_uturns * 2
  let re := reynolds_number i.rho velocity diameter_m mu_pa_s
  let f := darcy_friction_factor re roughness_m diameter_m
  let k0 := (elbows_90 : ℝ) * i.k_elbow_90
  let k_total := if i.include_inlet_outlet_k then k0 + 1.5 else k0
  let dynamic_pressure := i.rho * velocity ^ 2 / 2
  let dp_distributed_pa := f * (length_m / diameter_m) * dynamic_pressure
  let dp_local_pa := k_total * dynamic_pressure
  let dp_total_pa := dp_distributed_pa + dp_local_pa
  { flow_m3_s := q_m3_s
    velocity := velocity
    required_volume_m3 := required_volume_m3
    length_m := length_m
    n_straights := n_straights
    n_uturns := n_uturns
    elbows_90 := elbows_90
    re := re
    f := f
    k_total := k_total
    dp_distributed_pa := dp_distributed_pa
    dp_local_pa := dp_local_pa
    dp_total_pa := dp_total_pa }

/-- The single error kind of the spec's error taxonomy (§7): a required
parameter is zero such that a division by zero occurs in the
arithmetic chain.  In the Python source this surfaces as
`ZeroDivisionError`. -/
inductive Err where
  | invalidInput
  deriving DecidableEq

/-- Checked real division: Python float division raises on a zero
denominator. -/
noncomputable def divE (a b : ℝ) : Except Err ℝ :=
  if b = 0 then Except.error Err.invalidInput else Except.ok (a / b)

/-- `darcy_friction_factor` with every float division of the source
checked. -/
noncomputable def darcy_friction_factorE (re roughness_m diameter_m : ℝ) :
    Except Err ℝ :=
  if re ≤ 0 then Except.ok 0
  else if re < 2300 then divE 64 re
  else do
    let rel_roughness ← divE roughness_m diameter_m
    let t1 ← divE rel_roughness 3.7
    let t2 ← divE 5.74 (re ^ (0.9 : ℝ))
    divE 0.25 ((Real.logb 10 (t1 + t2)) ^ 2)

/-- `calculate_retention_coil` with every float division of the source
checked, in the source's evaluation order. -/
noncomputable def calculate_retention_coilE (i : Inputs) : Except Err Result := do
  let q_m3_s ← divE i.flow_m3_h 3600
  let diameter_m ← divE i.diameter_mm 1000
  let roughness_m ← divE i.roughness_mm 1000
  let mu_pa_s ← divE i.mu_mpa_s 1000
  let area ← divE (Real.pi * diameter_m ^ 2) 4
  let velocity ← divE q_m3_s area
  let required_volume_m3 := q_m3_s * i.retention_time_s
  let length_m ← divE required_volume_m3 area
  let ratio ← divE length_m i.straight_segment_m
  let n_straights : ℤ := max 1 ⌈ratio⌉
  let n_uturns : ℤ := max 0 (n_straights - 1)
  let elbows_90 : ℤ := n_uturns * 2
  let re ← divE (i.rho * velocity * diameter_m) mu_pa_s
  let f ← darcy_friction_factorE re roughness_m diameter_m
  let k0 := (elbows_90 : ℝ) * i.k_elbow_90
  let k_total := if i.include_inlet_outlet_k then k0 + 1.5 else k0
  let dynamic_pressure ← divE (i.rho * velocity ^ 2) 2
  let l_over_d ← divE length_m diameter_m
  let dp_distributed_pa := f * l_over_d * dynamic_pressure
  let dp_local_pa := k_total * dynamic_pressure
  let dp_total_pa := dp_distributed_pa + dp_local_pa
  Except.ok
    { flow_m3_s := q_m3_s
      velocity := velocity
      required_volume_m3 := required_volume_m3
      length_m := length_m
      n_straights := n_straights
      n_uturns := n_uturns
      elbows_90 := elbows_90
      re := re
      f := f
      k_total := k_total
      dp_distributed_pa := dp_distributed_pa
      dp_local_pa := dp_local_pa
      dp_total_pa := dp_total_pa }

/-- Bind reduction for `Except` on a success (definitional). -/
theorem bind_ok_eq {α β : Type} (a : α) (f : α → Except Err β) :
    (Except.ok a : Except Err α) >>= f = f a := rfl

/-- Bind reduction for `Except` on an error (definitional). -/
theorem bind_error_eq {α β : Type} (e : Err) (f : α → Except Err β) :
    (Except.error e : Except Err α) >>= f = Except.error e := rfl

/-- Below 2300 the friction factor never consults the roughness: both
the no-flow branch and the laminar branch ignore it. -/
theorem darcy_roughness_irrel (re r1 r2 D : ℝ) (h : re < 2300) :
    darcy_friction_factor re r1 D = darcy_friction_factor re r2 D := by
  by_cases h0 : re ≤ 0
  · simp [darcy_friction_factor, h0]
  · rw [darcy_friction_factor, darcy_friction_factor, if_neg h0, if_neg h0, if_pos h, if_pos h]

/-- The friction factor is nonnegative in every branch. -/
theorem darcy_friction_factor_nonneg (re r D : ℝ) :
    0 ≤ darcy_friction_factor re r D := by
  by_cases h0 : re ≤ 0
  · simp [darcy_friction_factor, h0]
  · by_cases h1 : re < 2300
    · rw [darcy_friction_factor, if_neg h0, if_pos h1]
      have hre : 0 < re := not_le.mp h0
      positivity
    · rw [darcy_friction_factor, if_neg h0, if_neg h1]
      exact div_nonneg (by norm_num) (sq_nonneg _)

/-- C1: the Darcy friction factor follows the three-branch rule over the
Reynolds number: `re ≤ 0` gives `0`; `0 < re < 2300` gives `64 / re`;
`re ≥ 2300` (with positive diameter) gives the Swamee-Jain value
`0.25 / (log10((roughness_m/diameter_m)/3.7 + 5.74/re^0.9))^2`. -/
theorem darcy_three_branch (re roughness_m diameter_m : ℝ) :
    (re ≤ 0 → darcy_friction_factor re roughness_m diameter_m = 0) ∧
    (0 < re → re < 2300 → darcy_friction_factor re roughness_m diameter_m = 64 / re) ∧
    (0 < diameter_m → 2300 ≤ re →
      darcy_friction_factor re roughness_m diameter_m =
        0.25 / (Real.logb 10 ((roughness_m / diameter_m) / 3.7 + 5.74 / re ^ (0.9 : ℝ))) ^ 2) := by
  refine ⟨fun h => ?_, fun h1 h2 => ?_, fun _ h2 => ?_⟩
  · simp [darcy_friction_factor, h]
  · rw [darcy_friction_factor, if_neg (not_le.mpr h1), if_pos h2]
  · rw [darcy_friction_factor, if_neg (not_le.mpr (by linarith)), if_neg (not_lt.mpr h2)]

/-- C1 witness: the three branches evaluated at `re = -1`, `re = 2000`
(laminar, giving `64/2000`) and `re = 100000` (turbulent Swamee-Jain). -/
theorem darcy_three_branch_witness :
    ((-1 : ℝ) ≤ 0 ∧ darcy_friction_factor (-1) 0.0000015 0.025 = 0) ∧
    ((0 : ℝ) < 2000 ∧ (2000 : ℝ) < 2300 ∧
      darcy_friction_factor 2000 0.0000015 0.025 = 64 / 2000) ∧
    ((0 : ℝ) < 0.025 ∧ (2300 : ℝ) ≤ 100000 ∧
      darcy_friction_factor 100000 0.0000025 0.025 =
        0.25 / (Real.logb 10 ((0.0000025 / 0.025) / 3.7 + 5.74 / (100000 : ℝ) ^ (0.9 : ℝ))) ^ 2) :=
  ⟨⟨by norm_num, (darcy_three_branch (-1) 0.0000015 0.025).1 (by norm_num)⟩,
   ⟨by norm_num, by norm_num,
     (darcy_three_branch 2000 0.0000015 0.025).2.1 (by norm_num) (by norm_num)⟩,
   ⟨by norm_num, by norm_num,
     (darcy_three_branch 100000 0.0000025 0.025).2.2 (by norm_num) (by norm_num)⟩⟩

/-- C2: if `diameter_mm = 0` or `mu_mpa_s = 0`, the checked computation
hits a division by zero and returns the invalid-input error instead of
a result record (so no record with infinities is ever produced). -/
theorem zero_diameter_or_viscosity_errors (i : Inputs)
    (h : i.diameter_mm = 0 ∨ i.mu_mpa_s = 0) :
    calculate_retention_coilE i = Except.error Err.invalidInput := by
  rcases h with hd | hm
  · norm_num [calculate_retention_coilE, divE, hd, bind_ok_eq, bind_error_eq]
  · by_cases hd0 : i.diameter_mm = 0
    · norm_num [calculate_retention_coilE, divE, hd0, bind_ok_eq, bind_error_eq]
    · have hdm : i.diameter_mm / 1000 ≠ 0 := by
        intro hx
        exact hd0 (by linarith [(div_eq_zero_iff.mp hx)])
      have harea : Real.pi * (i.diameter_mm / 1000) ^ 2 / 4 ≠ 0 :=
        div_ne_zero (mul_ne_zero Real.pi_ne_zero (pow_ne_zero 2 hdm)) (by norm_num)
      by_cases hs : i.straight_segment_m = 0
      · norm_num [calculate_retention_coilE, divE, harea, hs, hm, hd0, Real.pi_ne_zero,
          bind_ok_eq, bind_error_eq]
      · norm_num [calculate_retention_coilE, divE, harea, hs, hm, hd0, Real.pi_ne_zero,
          bind_ok_eq, bind_error_eq]

/-- C2 witness: a concrete call with `diameter_mm = 0` errors out. -/
theorem zero_diameter_or_viscosity_errors_witness :
    ((Inputs.mk 5 60 0 0.0015 998 1 2 0.9 true).diameter_mm = 0 ∨
      (Inputs.mk 5 60 0 0.0015 998 1 2 0.9 true).mu_mpa_s = 0) ∧
    calculate_retention_coilE (Inputs.mk 5 60 0 0.0015 998 1 2 0.9 true) =
      Except.error Err.invalidInput :=
  ⟨Or.inl rfl, zero_diameter_or_viscosity_errors (Inputs.mk 5 60 0 0.0015 998 1 2 0.9 true)
    (Or.inl rfl)⟩

/-- C3: the returned total pressure drop is exactly the sum of the
distributed and the local pressure drops. -/
theorem dp_total_decomposition (i : Inputs) :
    (calculate_retention_coil i).dp_total_pa =
      (calculate_retention_coil i).dp_distributed_pa + (calculate_retention_coil i).dp_local_pa :=
  rfl

/-- C4: with positive flow, retention time, diameter and straight-segment
length, the returned `n_straights` is at least 1. -/
theorem n_straights_ge_one (i : Inputs)
    (h1 : 0 < i.flow_m3_h) (h2 : 0 < i.retention_time_s)
    (h3 : 0 < i.diameter_mm) (h4 : 0 < i.straight_segment_m) :
    1 ≤ (calculate_retention_coil i).n_straights :=
  le_max_left _ _

/-- C4 witness: the spec's end-to-end scenario has at least one straight. -/
theorem n_straights_ge_one_witness :
    1 ≤ (calculate_retention_coil ⟨5, 60, 25, 0.0015, 998, 1, 2, 0.9, true⟩).n_straights :=
  n_straights_ge_one ⟨5, 60, 25, 0.0015, 998, 1, 2, 0.9, true⟩
    (by norm_num) (by norm_num) (by norm_num) (by norm_num)

/-- C5: the returned record satisfies `n_uturns = max 0 (n_straights - 1)`
and `elbows_90 = 2 * n_uturns`, hence `elbows_90` is even. -/
theorem uturn_elbow_invariants (i : Inputs) :
    (calculate_retention_coil i).n_uturns =
      max 0 ((calculate_retention_coil i).n_straights - 1) ∧
    (calculate_retention_coil i).elbows_90 = 2 * (calculate_retention_coil i).n_uturns ∧
    Even (calculate_retention_coil i).elbows_90 :=
  ⟨rfl, mul_comm _ _, ⟨(calculate_retention_coil i).n_uturns, by
    have h : (calculate_retention_coil i).elbows_90 =
        (calculate_retention_coil i).n_uturns * 2 := rfl
    rw [h]; ring⟩⟩

/-- C6: with the other eight inputs fixed, `k_total` with the
inlet/outlet flag on equals `k_total` with it off plus exactly `1.5`,
and with the flag off `k_total` equals `elbows_90 * k_elbow_90`. -/
theorem k_total_toggle (i : Inputs) :
    (calculate_retention_coil { i with include_inlet_outlet_k := true }).k_total =
      (calculate_retention_coil { i with include_inlet_outlet_k := false }).k_total + 1.5 ∧
    (calculate_retention_coil { i with include_inlet_outlet_k := false }).k_total =
      ((calculate_retention_coil { i with include_inlet_outlet_k := false }).elbows_90 : ℝ) *
        i.k_elbow_90 :=
  ⟨rfl, rfl⟩

/-- C7: increasing only `retention_time_s` (with positive flow, diameter
and straight-segment length) never decreases `n_straights`, `length_m`
or `elbows_90`. -/
theorem retention_time_monotone (i : Inputs) (t' : ℝ)
    (hf : 0 < i.flow_m3_h) (hd : 0 < i.diameter_mm) (hs : 0 < i.straight_segment_m)
    (ht : i.retention_time_s ≤ t') :
    (calculate_retention_coil i).n_straights ≤
      (calculate_retention_coil { i with retention_time_s := t' }).n_straights ∧
    (calculate_retention_coil i).length_m ≤
      (calculate_retention_coil { i with retention_time_s := t' }).length_m ∧
    (calculate_retention_coil i).elbows_90 ≤
      (calculate_retention_coil { i with retention_time_s := t' }).elbows_90 := by
  have hq : 0 < i.flow_m3_h / 3600 := div_pos hf (by norm_num)
  have hdm : 0 < i.diameter_mm / 1000 := div_pos hd (by norm_num)
  have harea : 0 < Real.pi * (i.diameter_mm / 1000) ^ 2 / 4 :=
    div_pos (mul_pos Real.pi_pos (pow_pos hdm 2)) (by norm_num)
  have hlen : (i.flow_m3_h / 3600) * i.retention_time_s / (Real.pi * (i.diameter_mm / 1000) ^ 2 / 4)
      ≤ (i.flow_m3_h / 3600) * t' / (Real.pi * (i.diameter_mm / 1000) ^ 2 / 4) := by
    gcongr
  have hn : (max 1 ⌈(i.flow_m3_h / 3600) * i.retention_time_s /
        (Real.pi * (i.diameter_mm / 1000) ^ 2 / 4) / i.straight_segment_m⌉ : ℤ)
      ≤ max 1 ⌈(i.flow_m3_h / 3600) * t' /
        (Real.pi * (i.diameter_mm / 1000) ^ 2 / 4) / i.straight_segment_m⌉ := by
    gcongr
  refine ⟨?_, ?_, ?_⟩
  · simp only [calculate_retention_coil]
    exact hn
  · simp only [calculate_retention_coil]
    exact hlen
  · simp only [calculate_retention_coil]
    have h2 : (max 0 (max 1 ⌈(i.flow_m3_h / 3600) * i.retention_time_s /
          (Real.pi * (i.diameter_mm / 1000) ^ 2 / 4) / i.straight_segment_m⌉ - 1) : ℤ)
        ≤ max 0 (max 1 ⌈(i.flow_m3_h / 3600) * t' /
          (Real.pi * (i.diameter_mm / 1000) ^ 2 / 4) / i.straight_segment_m⌉ - 1) := by
      gcongr
    exact mul_le_mul_of_nonneg_right h2 (by norm_num)

/-- C7 witness: doubling the retention time at a concrete input does not
shrink segments, length or elbow count. -/
theorem retention_time_monotone_witness :
    (0 < (1 : ℝ) ∧ (1 : ℝ) ≤ 2) ∧
    ((calculate_retention_coil ⟨1, 1, 1, 0, 1, 1, 1, 0, false⟩).n_straights ≤
      (calculate_retention_coil ⟨1, 2, 1, 0, 1, 1, 1, 0, false⟩).n_straights ∧
    (calculate_retention_coil ⟨1, 1, 1, 0, 1, 1, 1, 0, false⟩).length_m ≤
      (calculate_retention_coil ⟨1, 2, 1, 0, 1, 1, 1, 0, false⟩).length_m ∧
    (calculate_retention_coil ⟨1, 1, 1, 0, 1, 1, 1, 0, false⟩).elbows_90 ≤
      (calculate_retention_coil ⟨1, 2, 1, 0, 1, 1, 1, 0, false⟩).elbows_90) :=
  ⟨⟨by norm_num, by norm_num⟩,
    retention_time_monotone ⟨1, 1, 1, 0, 1, 1, 1, 0, false⟩ 2
      (by norm_num) (by norm_num) (by norm_num) (by norm_num)⟩

/-- C8: the computation is deterministic and stateless — equal input
records yield equal result records (the embedding is a pure function,
so there is no hidden state to depend on). -/
theorem calc_deterministic (i j : Inputs) (h : i = j) :
    calculate_retention_coil i = calculate_retention_coil j :=
  congrArg calculate_retention_coil h

/-- C8 witness: two calls on the spec's end-to-end scenario agree. -/
theorem calc_deterministic_witness :
    calculate_retention_coil ⟨5, 60, 25, 0.0015, 998, 1, 2, 0.9, true⟩ =
      calculate_retention_coil ⟨5, 60, 25, 0.0015, 998, 1, 2, 0.9, true⟩ :=
  calc_deterministic ⟨5, 60, 25, 0.0015, 998, 1, 2, 0.9, true⟩
    ⟨5, 60, 25, 0.0015, 998, 1, 2, 0.9, true⟩ rfl

/-- C9: when the computed Reynolds number is below 2300 the whole result
record is independent of `roughness_mm`, since roughness is consulted
only in the turbulent friction branch. -/
theorem laminar_roughness_independent (i : Inputs) (r' : ℝ)
    (h : (calculate_retention_coil i).re < 2300) :
    calculate_retention_coil i = calculate_retention_coil { i with roughness_mm := r' } := by
  simp only [calculate_retention_coil, reynolds_number] at h ⊢
  ext <;> simp only
  all_goals rw [darcy_roughness_irrel _ (i.roughness_mm / 1000) (r' / 1000) _ h]

/-- C9 witness: a no-flow call (Reynolds number 0) returns the same
record with roughness 5 mm and 7 mm. -/
theorem laminar_roughness_independent_witness :
    (calculate_retention_coil ⟨0, 0, 0, 5, 0, 0, 0, 0, false⟩).re < 2300 ∧
    calculate_retention_coil ⟨0, 0, 0, 5, 0, 0, 0, 0, false⟩ =
      calculate_retention_coil ⟨0, 0, 0, 7, 0, 0, 0, 0, false⟩ :=
  ⟨by norm_num [calculate_retention_coil, reynolds_number],
   laminar_roughness_independent ⟨0, 0, 0, 5, 0, 0, 0, 0, false⟩ 7
     (by norm_num [calculate_retention_coil, reynolds_number])⟩

/-- C10 counterexample: at flow 3600 m³/h, retention 1 s, diameter
1000 mm, roughness 0, density 1, viscosity −1 mPa·s, segment 1 m and
elbow factor 0, every hypothesis of the claim holds (it does not
constrain the viscosity), yet the returned Reynolds number is negative,
so not every returned field is nonnegative. -/
theorem nonneg_fields_counterexample :
    (0 < (Inputs.mk 3600 1 1000 0 1 (-1) 1 0 false).flow_m3_h ∧
     0 < (Inputs.mk 3600 1 1000 0 1 (-1) 1 0 false).retention_time_s ∧
     0 < (Inputs.mk 3600 1 1000 0 1 (-1) 1 0 false).diameter_mm ∧
     0 < (Inputs.mk 3600 1 1000 0 1 (-1) 1 0 false).straight_segment_m ∧
     0 < (Inputs.mk 3600 1 1000 0 1 (-1) 1 0 false).rho ∧
     0 ≤ (Inputs.mk 3600 1 1000 0 1 (-1) 1 0 false).k_elbow_90) ∧
    (calculate_retention_coil (Inputs.mk 3600 1 1000 0 1 (-1) 1 0 false)).re < 0 := by
  refine ⟨⟨by norm_num, by norm_num, by norm_num, by norm_num, by norm_num, by norm_num⟩, ?_⟩
  simp only [calculate_retention_coil, reynolds_number]
  rw [div_neg_iff]
  left
  constructor
  · positivity
  · norm_num

/-- C10 amended: with positive flow, retention time, diameter,
straight-segment length, density AND viscosity, and a nonnegative elbow
factor, every returned field is nonnegative, and in exact real
arithmetic `length_m = velocity * retention_time_s`. -/
theorem nonneg_fields (i : Inputs)
    (hf : 0 < i.flow_m3_h) (ht : 0 < i.retention_time_s) (hd : 0 < i.diameter_mm)
    (hs : 0 < i.straight_segment_m) (hrho : 0 < i.rho) (hk : 0 ≤ i.k_elbow_90)
    (hmu : 0 < i.mu_mpa_s) :
    0 ≤ (calculate_retention_coil i).flow_m3_s ∧
    0 ≤ (calculate_retention_coil i).velocity ∧
    0 ≤ (calculate_retention_coil i).required_volume_m3 ∧
    0 ≤ (calculate_retention_coil i).length_m ∧
    0 ≤ (calculate_retention_coil i).n_straights ∧
    0 ≤ (calculate_retention_coil i).n_uturns ∧
    0 ≤ (calculate_retention_coil i).elbows_90 ∧
    0 ≤ (calculate_retention_coil i).re ∧
    0 ≤ (calculate_retention_coil i).f ∧
    0 ≤ (calculate_retention_coil i).k_total ∧
    0 ≤ (calculate_retention_coil i).dp_distributed_pa ∧
    0 ≤ (calculate_retention_coil i).dp_local_pa ∧
    0 ≤ (calculate_retention_coil i).dp_total_pa ∧
    (calculate_retention_coil i).length_m =
      (calculate_retention_coil i).velocity * i.retention_time_s := by
  have hq : 0 < i.flow_m3_h / 3600 := div_pos hf (by norm_num)
  have hdm : 0 < i.diameter_mm / 1000 := div_pos hd (by norm_num)
  have harea : 0 < Real.pi * (i.diameter_mm / 1000) ^ 2 / 4 :=
    div_pos (mul_pos Real.pi_pos (pow_pos hdm 2)) (by norm_num)
  have hv : 0 < (i.flow_m3_h / 3600) / (Real.pi * (i.diameter_mm / 1000) ^ 2 / 4) :=
    div_pos hq harea
  have hlen : 0 < (i.flow_m3_h / 3600) * i.retention_time_s /
      (Real.pi * (i.diameter_mm / 1000) ^ 2 / 4) :=
    div_pos (mul_pos hq ht) harea
  have hmu' : 0 < i.mu_mpa_s / 1000 := div_pos hmu (by norm_num)
  have hn : (0 : ℤ) ≤ max 1 ⌈(i.flow_m3_h / 3600) * i.retention_time_s /
      (Real.pi * (i.diameter_mm / 1000) ^ 2 / 4) / i.straight_segment_m⌉ :=
    le_trans (by norm_num) (le_max_left 1 _)
  have hu : (0 : ℤ) ≤ max 0 (max 1 ⌈(i.flow_m3_h / 3600) * i.retention_time_s /
      (Real.pi * (i.diameter_mm / 1000) ^ 2 / 4) / i.straight_segment_m⌉ - 1) :=
    le_max_left 0 _
  have helb : (0 : ℤ) ≤ (max 0 (max 1 ⌈(i.flow_m3_h / 3600) * i.retention_time_s /
      (Real.pi * (i.diameter_mm / 1000) ^ 2 / 4) / i.straight_segment_m⌉ - 1)) * 2 :=
    mul_nonneg hu (by norm_num)
  have hqdyn : 0 ≤ i.rho * ((i.flow_m3_h / 3600) /
      (Real.pi * (i.diameter_mm / 1000) ^ 2 / 4)) ^ 2 / 2 :=
    div_nonneg (mul_nonneg hrho.le (sq_nonneg _)) (by norm_num)
  simp only [calculate_retention_coil, reynolds_number]
  refine ⟨hq.le, hv.le, (mul_pos hq ht).le, hlen.le, hn, hu, helb, ?_, ?_, ?_, ?_, ?_, ?_, ?_⟩
  · exact (div_pos (mul_pos (mul_pos hrho hv) hdm) hmu').le
  · exact darcy_friction_factor_nonneg _ _ _
  · have hk0 : (0 : ℝ) ≤ ((max 0 (max 1 ⌈(i.flow_m3_h / 3600) * i.retention_time_s /
        (Real.pi * (i.diameter_mm / 1000) ^ 2 / 4) / i.straight_segment_m⌉ - 1) * 2 : ℤ) : ℝ) *
        i.k_elbow_90 :=
      mul_nonneg (by exact_mod_cast helb) hk
    split
    · linarith
    · exact hk0
  · exact mul_nonneg (mul_nonneg (darcy_friction_factor_nonneg _ _ _)
      (div_nonneg hlen.le hdm.le)) hqdyn
  · have hk0 : (0 : ℝ) ≤ ((max 0 (max 1 ⌈(i.flow_m3_h / 3600) * i.retention_time_s /
        (Real.pi * (i.diameter_mm / 1000) ^ 2 / 4) / i.straight_segment_m⌉ - 1) * 2 : ℤ) : ℝ) *
        i.k_elbow_90 :=
      mul_nonneg (by exact_mod_cast helb) hk
    have hkt : (0 : ℝ) ≤ (if i.include_inlet_outlet_k then
        ((max 0 (max 1 ⌈(i.flow_m3_h / 3600) * i.retention_time_s /
          (Real.pi * (i.diameter_mm / 1000) ^ 2 / 4) / i.straight_segment_m⌉ - 1) * 2 : ℤ) : ℝ) *
          i.k_elbow_90 + 1.5
        else ((max 0 (max 1 ⌈(i.flow_m3_h / 3600) * i.retention_time_s /
          (Real.pi * (i.diameter_mm / 1000) ^ 2 / 4) / i.straight_segment_m⌉ - 1) * 2 : ℤ) : ℝ) *
          i.k_elbow_90) := by
      split
      · linarith
      · exact hk0
    exact mul_nonneg hkt hqdyn
  · refine add_nonneg (mul_nonneg (mul_nonneg (darcy_friction_factor_nonneg _ _ _)
      (div_nonneg hlen.le hdm.le)) hqdyn) ?_
    have hk0 : (0 : ℝ) ≤ ((max 0 (max 1 ⌈(i.flow_m3_h / 3600) * i.retention_time_s /
        (Real.pi * (i.diameter_mm / 1000) ^ 2 / 4) / i.straight_segment_m⌉ - 1) * 2 : ℤ) : ℝ) *
        i.k_elbow_90 :=
      mul_nonneg (by exact_mod_cast helb) hk
    have hkt : (0 : ℝ) ≤ (if i.include_inlet_outlet_k then
        ((max 0 (max 1 ⌈(i.flow_m3_h / 3600) * i.retention_time_s /
          (Real.pi * (i.diameter_mm / 1000) ^ 2 / 4) / i.straight_segment_m⌉ - 1) * 2 : ℤ) : ℝ) *
          i.k_elbow_90 + 1.5
        else ((max 0 (max 1 ⌈(i.flow_m3_h / 3600) * i.retention_time_s /
          (Real.pi * (i.diameter_mm / 1000) ^ 2 / 4) / i.straight_segment_m⌉ - 1) * 2 : ℤ) : ℝ) *
          i.k_elbow_90) := by
      split
      · linarith
      · exact hk0
    exact mul_nonneg hkt hqdyn
  · exact (div_mul_eq_mul_div _ _ _).symm

/-- C10 amended witness: the spec's end-to-end scenario has nonnegative
total pressure drop. -/
theorem nonneg_fields_witness :
    0 < (5 : ℝ) ∧ 0 < (60 : ℝ) ∧ 0 < (25 : ℝ) ∧ 0 < (2 : ℝ) ∧ 0 < (998 : ℝ) ∧
    (0 : ℝ) ≤ 0.9 ∧ 0 < (1 : ℝ) ∧
    0 ≤ (calculate_retention_coil ⟨5, 60, 25, 0.0015, 998, 1, 2, 0.9, true⟩).dp_total_pa :=
  ⟨by norm_num, by norm_num, by norm_num, by norm_num, by norm_num, by norm_num, by norm_num,
   (nonneg_fields ⟨5, 60, 25, 0.0015, 998, 1, 2, 0.9, true⟩ (by norm_num) (by norm_num)
     (by norm_num) (by norm_num) (by norm_num) (by norm_num) (by norm_num)).2.2.2.2.2.2.2.2.2.2.2.2.1⟩

end RetentionCoil
